import Mathlib

/-!
Verification of the Covr OCR parse service against its specification.

The definitions below are a shallow embedding of the Python sources of
`ocr_parse_service`:

* `app/normalize.py`   — `LineRecord`, `normalize_ocr`
* `app/ranker.py`      — junk filter, person-likeness, title/author
  scoring, adjacent-line merging, IoU, `rank_candidates`
* `app/similarity.py`  — token-set ratio (library-free fallback branch)
  and `weighted_similarity`
* `app/verifier/*.py`  — the two providers and `verify_candidates`

Python floats are modelled as `ℚ` (the decimal constants of the source are
exact decimals), machine ints as `ℤ`/`ℕ`, optional values as `Option`, and
Python truthiness is spelled out where the source relies on it.  The HTTP
layer of the verifier is modelled as an oracle `ℕ → Resp` giving the
response of the n-th request issued; a `timeout`/`exc` response stands for
a request that raised after being sent, exactly where the source catches
exceptions around `client.get`.
-/

set_option maxHeartbeats 4000000
set_option maxRecDepth 100000
set_option linter.unusedVariables false

unseal Rat.add Rat.mul Rat.sub Rat.inv Rat.ofScientific

/-- Python `max(a, b)` on rationals (kernel-computable). -/
def pymax (a b : ℚ) : ℚ := if a ≤ b then b else a

/-- Python `min(a, b)` on rationals (kernel-computable). -/
def pymin (a b : ℚ) : ℚ := if a ≤ b then a else b

/-- Python `abs(a)` on rationals (kernel-computable). -/
def pyabs (a : ℚ) : ℚ := if a < 0 then -a else a

/-- Python `min(a, b)` on integers (kernel-computable). -/
def pyminI (a b : ℤ) : ℤ := if a ≤ b then a else b

/-! ### Python-style string utilities (`str.strip`, `str.split`, `in`, …) -/

/-- Model of Python `str.strip()` on a character list: drop whitespace at
both ends. -/
def pyStripCL (cs : List Char) : List Char :=
  ((cs.dropWhile Char.isWhitespace).reverse.dropWhile Char.isWhitespace).reverse

/-- Model of Python `str.strip()`. -/
def pyStrip (s : String) : String := ⟨pyStripCL s.data⟩

/-- Model of Python `str.lower()` (ASCII-faithful). -/
def pyLower (s : String) : String := ⟨s.data.map Char.toLower⟩

/-- Model of Python `str.upper()` (ASCII-faithful). -/
def pyUpper (s : String) : String := ⟨s.data.map Char.toUpper⟩

/-- Model of Python `str.isupper()` for ASCII text: at least one cased
character, and no lowercase character. -/
def pyIsUpper (s : String) : Bool :=
  s.data.any Char.isAlpha && s.data.all (fun c => !c.isLower)

/-- `isPrefixCL p l` holds when `p` is a prefix of `l`. -/
def isPrefixCL : List Char → List Char → Bool
  | [], _ => true
  | _ :: _, [] => false
  | a :: as1, b :: bs1 => a == b && isPrefixCL as1 bs1

/-- Substring containment on character lists (Python `needle in hay`). -/
def containsCL (pat : List Char) : List Char → Bool
  | [] => isPrefixCL pat []
  | c :: rest => isPrefixCL pat (c :: rest) || containsCL pat rest

/-- Python `needle in hay` for strings. -/
def strContains (hay pat : String) : Bool := containsCL pat.data hay.data

/-- Worker for whitespace splitting; `acc` is the reversed current word. -/
def splitWsGo : List Char → List Char → List (List Char)
  | acc, [] => if acc = [] then [] else [acc.reverse]
  | acc, c :: rest =>
    if c.isWhitespace then
      if acc = [] then splitWsGo [] rest else acc.reverse :: splitWsGo [] rest
    else splitWsGo (c :: acc) rest

/-- Model of Python `str.split()` (split on whitespace runs, no empties). -/
def pySplit (s : String) : List String := (splitWsGo [] s.data).map (⟨·⟩)

/-- Python `" ".join(xs)`. -/
def joinWith (sep : String) : List String → String
  | [] => ""
  | [x] => x
  | x :: xs => x ++ sep ++ joinWith sep xs

/-- Truthiness of an optional float (`None` and `0.0` are falsy). -/
def confTruthy : Option ℚ → Bool
  | some v => v ≠ 0
  | none => false

/-- Value of an optional float where the source has established presence. -/
def confVal : Option ℚ → ℚ
  | some v => v
  | none => 0

/-- Python `a or b` on optional floats (first truthy operand, else `b`). -/
def pyOrOpt (a b : Option ℚ) : Option ℚ := if confTruthy a then a else b

/-- Truthiness of an optional string (`None` and `""` are falsy). -/
def truthyStr : Option String → Bool
  | some s => s ≠ ""
  | none => false

/-! ### `app/normalize.py` — `LineRecord` -/

/-- `LineRecord` from `app/normalize.py`: a normalized OCR line with its
derived features. -/
structure LineRecord where
  text : String
  bbox : List ℚ
  line_conf : Option ℚ
  height : ℚ
  center_x : ℚ
  center_y : ℚ
  word_count : ℕ
  char_len : ℕ
  tokens : List String
  caps_ratio : ℚ
deriving DecidableEq, Repr

/-- `bbox[i]` access; the source assumes at least four coordinates. -/
def bb (b : List ℚ) (i : ℕ) : ℚ := b.getD i 0

/-! ### `app/ranker.py` — junk filter -/

/-- `JUNK_KEYWORDS` from `app/ranker.py`. -/
def JUNK_KEYWORDS : List String :=
  ["A NOVEL", "NEW YORK TIMES", "BESTSELLER", "WINNER",
   "NOW A MAJOR MOTION PICTURE", "FOREWORD", "INTRODUCTION", "VOLUME",
   "BOOK ONE", "BOOK TWO", "BOOK THREE", "EDITION", "REVISED", "UPDATED",
   "COPYRIGHT", "PUBLISHED BY", "ISBN", "WWW.", "HTTP://", "HTTPS://"]

/-- The character class `[a-zA-Z0-9._%+-]` of `EMAIL_PATTERN`. -/
def emailC1 (c : Char) : Bool :=
  c.isAlphanum || c = '.' || c = '_' || c = '%' || c = '+' || c = '-'

/-- The character class `[a-zA-Z0-9.-]` of `EMAIL_PATTERN`. -/
def emailC2 (c : Char) : Bool := c.isAlphanum || c = '.' || c = '-'

/-- `EMAIL_PATTERN.search`: some substring matches
`[a-zA-Z0-9._%+-]+@[a-zA-Z0-9.-]+\.[a-zA-Z]{2,}`.  Position `i` is the
`@`, position `j` the dot before the final alphabetic run. -/
def emailSearch (cs : List Char) : Bool :=
  (List.range cs.length).any fun i =>
    cs.getD i ' ' == '@' && decide (0 < i) && emailC1 (cs.getD (i - 1) ' ') &&
    ((List.range cs.length).any fun j =>
      decide (i + 2 ≤ j) && decide (j + 2 < cs.length) && cs.getD j ' ' == '.' &&
      ((List.range cs.length).all fun m =>
        !(decide (i < m) && decide (m < j)) || emailC2 (cs.getD m ' ')) &&
      (cs.getD (j + 1) ' ').isAlpha && (cs.getD (j + 2) ' ').isAlpha)

/-- `URL_PATTERN.search` (`https?://|www\.|\.com|\.org|\.net`, ignorecase):
substring containment on the lowercased text. -/
def urlSearch (s : String) : Bool :=
  let t := pyLower s
  strContains t "http://" || strContains t "https://" || strContains t "www." ||
    strContains t ".com" || strContains t ".org" || strContains t ".net"

/-- `is_junk` from `app/ranker.py`. -/
def is_junk (text : String) : Bool :=
  let tu := pyUpper text
  JUNK_KEYWORDS.any (fun k => strContains tu k) ||
    (urlSearch text || emailSearch text.data) ||
    decide (text.length > 200)

/-! ### `app/ranker.py` — person-likeness and scoring -/

/-- The stopword set of `person_like_score`. -/
def personStopwords : List String :=
  ["the", "a", "an", "and", "or", "but", "in", "on", "at", "to", "for"]

/-- `person_like_score` from `app/ranker.py` (0–1, clamped). -/
def person_like_score (text : String) (tokens : List String) : ℚ :=
  if text = "" ∨ tokens = [] then 0
  else
    let s1 : ℚ :=
      if 2 ≤ tokens.length ∧ tokens.length ≤ 5 then 0.3
      else if tokens.length = 1 then 0.1 else 0
    let alpha : ℚ := ((text.data.filter Char.isAlpha).length : ℚ)
    let s2 := s1 + (if alpha / (text.length : ℚ) > 0.8 then (0.2 : ℚ) else 0)
    let allCapsOrInitial := tokens.all fun t =>
      t == "" || (t.data.headD ' ').isUpper ||
        (decide (t.length = 2) && t.data.getD 1 ' ' == '.')
    let s3 := s2 + (if allCapsOrInitial then (0.3 : ℚ) else 0)
    let s4 := s3 - (if pyIsUpper text ∧ text.length > 5 then (0.1 : ℚ) else 0)
    let s5 := s4 - (if text.data.any Char.isDigit then (0.2 : ℚ) else 0)
    let s6 := s5 -
      (if tokens.any (fun t => personStopwords.contains (pyLower t)) then (0.2 : ℚ) else 0)
    pymax 0 (pymin 1 s6)

/-- `has_by_prefix` from `app/ranker.py` (`text.lower().strip()` starts
with `"by "` or equals `"by"`). -/
def hasByPrefix (text : String) : Bool :=
  let t := pyStrip (pyLower text)
  isPrefixCL "by ".data t.data || t == "by"

/-- `re.sub(r"^by\s+", "", text, flags=re.IGNORECASE).strip()` — used both
for the in-place author-text mutation and for candidate display text. -/
def stripByTrim (text : String) : String :=
  match text.data with
  | b :: y :: c :: rest =>
    if b.toLower == 'b' && y.toLower == 'y' && c.isWhitespace then
      pyStrip ⟨(c :: rest).dropWhile Char.isWhitespace⟩
    else pyStrip text
  | _ => pyStrip text

/-- `calculate_bbox_iou` from `app/ranker.py`. -/
def calculate_bbox_iou (bbox1 bbox2 : List ℚ) : ℚ :=
  if bbox1.length < 4 ∨ bbox2.length < 4 then 0
  else
    let x11 := bb bbox1 0; let y11 := bb bbox1 1
    let x21 := bb bbox1 2; let y21 := bb bbox1 3
    let x12 := bb bbox2 0; let y12 := bb bbox2 1
    let x22 := bb bbox2 2; let y22 := bb bbox2 3
    let x1i := pymax x11 x12
    let y1i := pymax y11 y12
    let x2i := pymin x21 x22
    let y2i := pymin y21 y22
    if x2i ≤ x1i ∨ y2i ≤ y1i then 0
    else
      let inter := (x2i - x1i) * (y2i - y1i)
      let area1 := (x21 - x11) * (y21 - y11)
      let area2 := (x22 - x12) * (y22 - y12)
      let union := area1 + area2 - inter
      if union > 0 then inter / union else 0

/-- The confidence boost test `line.line_conf and line.line_conf > 50`. -/
def confGt50 : Option ℚ → Bool
  | some v => v ≠ 0 && v > 50
  | none => false

/-- `title_score` from `app/ranker.py`.  (`image_height` is accepted but
unused, exactly as in the source.) -/
def title_score (line : LineRecord) (max_height image_height : ℚ) : ℚ :=
  let s1 : ℚ := if max_height > 0 then line.height / max_height * 0.3 else 0
  let centerScore : ℚ := 1 - pyabs (line.center_x - 0.5) * 2
  let s2 := s1 + pymax 0 centerScore * 0.2
  let s3 := s2 +
    (if line.center_y < 0.33 then (0.15 : ℚ)
     else if 0.33 ≤ line.center_y ∧ line.center_y ≤ 0.67 then 0.2 else 0.05)
  let s4 := s3 +
    (if 1 ≤ line.word_count ∧ line.word_count ≤ 10 then (0.15 : ℚ)
     else if line.word_count > 15 then -0.1 else 0)
  let s5 := s4 - person_like_score line.text line.tokens * 0.1
  let s6 := s5 - (if is_junk line.text then (0.5 : ℚ) else 0)
  let s7 := s6 + (if confGt50 line.line_conf then (0.1 : ℚ) else 0)
  pymax 0 s7

/-- `author_score` from `app/ranker.py`.  The source mutates `line.text`
in place when a `"by "` prefix is present; the mutation is modelled by
returning the updated record alongside the score.  The junk test runs on
the already-stripped text, as in the source. -/
def author_score (line : LineRecord) (max_height image_height : ℚ) : ℚ × LineRecord :=
  let person := person_like_score line.text line.tokens
  let s1 := person * 0.4
  let hasBy := hasByPrefix line.text
  let s2 := s1 + (if hasBy then (0.3 : ℚ) else 0)
  let line' := if hasBy then { line with text := stripByTrim line.text } else line
  let s3 := s2 +
    (if max_height > 0 then
       (if 0.3 ≤ line.height / max_height ∧ line.height / max_height ≤ 1.2
        then (0.15 : ℚ) else 0)
     else 0)
  let s4 := s3 +
    (if line.center_y > 0.67 then (0.15 : ℚ)
     else if line.center_y < 0.33 then 0.1 else 0)
  let s5 := s4 +
    (if 1 ≤ line.word_count ∧ line.word_count ≤ 5 then (0.15 : ℚ)
     else if line.word_count > 8 then -0.1 else 0)
  let s6 := s5 - (if is_junk line'.text then (0.5 : ℚ) else 0)
  let s7 := s6 + (if confGt50 line.line_conf then (0.1 : ℚ) else 0)
  (pymax 0 s7, line')

/-- The net record effect of `author_score`'s in-place mutation. -/
def applyByStrip (line : LineRecord) : LineRecord :=
  if hasByPrefix line.text then { line with text := stripByTrim line.text } else line

/-- `calculate_caps_ratio` (duplicated in `normalize.py` and `ranker.py`). -/
def calculate_caps_ratio (text : String) : ℚ :=
  if text = "" then 0
  else
    let letters := text.data.filter Char.isAlpha
    if letters = [] then 0
    else ((letters.filter Char.isUpper).length : ℚ) / (letters.length : ℚ)

/-! ### `app/ranker.py` — `merge_adjacent_lines` -/

/-- The merged record built at `ranker.py:253-284` for one absorbed pair. -/
def mergeTwo (current cand : LineRecord) : LineRecord :=
  let mtext := current.text ++ " " ++ cand.text
  let m0 := pymin (bb current.bbox 0) (bb cand.bbox 0)
  let m1 := pymin (bb current.bbox 1) (bb cand.bbox 1)
  let m2 := pymax (bb current.bbox 2) (bb cand.bbox 2)
  let m3 := pymax (bb current.bbox 3) (bb cand.bbox 3)
  let mconf :=
    if confTruthy current.line_conf && confTruthy cand.line_conf then
      some ((confVal current.line_conf + confVal cand.line_conf) / 2)
    else pyOrOpt current.line_conf cand.line_conf
  let mtokens := current.tokens ++ cand.tokens
  { text := mtext
    bbox := [m0, m1, m2, m3]
    line_conf := mconf
    height := pymax current.height cand.height
    center_x := (m0 + m2) / 2
    center_y := (m1 + m3) / 2
    word_count := mtokens.length
    char_len := mtext.length
    tokens := mtokens
    caps_ratio := calculate_caps_ratio mtext }

/-- The inner `while j < len(lines)` look-ahead of `merge_adjacent_lines`:
starting from `current`, absorb / skip / stop over the remaining lines,
returning the final record and the lines left for the outer loop (`i = j`).
A close-but-misaligned candidate is skipped (`j += 1; continue`) and, as in
the source, never re-emitted. -/
def mergeRun (avg : ℚ) : LineRecord → List LineRecord → LineRecord × List LineRecord
  | current, [] => (current, [])
  | current, cand :: rest =>
    if pyabs (bb cand.bbox 1 - bb current.bbox 3) > 0.6 * avg then (current, cand :: rest)
    else if pyabs (cand.center_x - current.center_x) > 0.1 then mergeRun avg current rest
    else if current.word_count ≤ 5 ∧ cand.word_count ≤ 5 then
      mergeRun avg (mergeTwo current cand) rest
    else (current, cand :: rest)

theorem mergeRun_snd_length_le (avg : ℚ) (current : LineRecord) :
    ∀ l : List LineRecord, (mergeRun avg current l).2.length ≤ l.length := by
  intro l
  induction l generalizing current with
  | nil => simp [mergeRun]
  | cons c rest ih =>
    simp only [mergeRun]
    split
    · simp
    · split
      · exact le_trans (ih current) (Nat.le_succ _)
      · split
        · exact le_trans (ih (mergeTwo current c)) (Nat.le_succ _)
        · simp

/-- The outer `while i < len(lines)` loop of `merge_adjacent_lines`.
Each outer step consumes at least one line (`mergeRun` never grows its
remainder, see `mergeRun_snd_length_le`), so structural recursion on a
fuel bounded below by the list length computes the loop exactly; the
zero-fuel clause is unreachable from `merge_adjacent_lines`. -/
def mergeAll : ℕ → ℚ → List LineRecord → List LineRecord
  | _, _, [] => []
  | 0, _, _ :: _ => []
  | fuel + 1, avg, l :: rest =>
    (mergeRun avg l rest).1 :: mergeAll fuel avg (mergeRun avg l rest).2

/-- The mean line height `sum(l.height for l in lines) / len(lines)`. -/
def avgHeightOf (lines : List LineRecord) : ℚ :=
  (lines.map (·.height)).sum / (lines.length : ℚ)

/-- `merge_adjacent_lines` from `app/ranker.py`. -/
def merge_adjacent_lines (lines : List LineRecord) : List LineRecord :=
  match lines with
  | [] => []
  | _ => mergeAll lines.length (avgHeightOf lines) lines

/-! ### `app/models.py` — input models and settings -/

/-- `ImageInfo` from `app/models.py`. -/
structure ImageInfo where
  width : ℤ
  height : ℤ
deriving DecidableEq, Repr

/-- `Word` from `app/models.py` (fields read by the core). -/
structure OWord where
  word_num : ℤ
  bbox : List ℚ
  confidence : Option ℚ
  text : String
deriving DecidableEq, Repr

/-- `Line` from `app/models.py`. -/
structure OLine where
  line_num : ℤ
  bbox : List ℚ
  confidence : Option ℚ
  text : Option String
  words : List OWord
deriving DecidableEq, Repr

/-- `Paragraph` from `app/models.py`. -/
structure OParagraph where
  par_num : ℤ
  bbox : List ℚ
  lines : List OLine
deriving DecidableEq, Repr

/-- `Block` from `app/models.py`. -/
structure OBlock where
  block_num : ℤ
  bbox : List ℚ
  paragraphs : List OParagraph
deriving DecidableEq, Repr

/-- `Chunks` from `app/models.py`. -/
structure Chunks where
  blocks : List OBlock
deriving DecidableEq, Repr

/-- `OCRInput` from `app/models.py` (the fields the core reads; the
transport-level fields `request_id`, `text`, `timing_ms`, `warnings` are
never consulted by normalization or ranking). -/
structure OCRInput where
  image : Option ImageInfo
  chunks : Option Chunks
deriving DecidableEq, Repr

/-- `ParseSettings` from `app/models.py`. -/
structure ParseSettings where
  conf_min_word : ℤ
  conf_min_line : ℤ
  max_lines_considered : ℤ
  merge_adjacent_lines : Bool
  junk_filter : Bool
  verify : Bool
  verify_provider_order : List String
  max_verify_queries : ℤ
deriving DecidableEq, Repr

/-! ### `app/normalize.py` — `normalize_ocr` -/

/-- `extract_text_from_words` from `app/normalize.py`: space-join the
non-empty word texts. -/
def extract_text_from_words (words : List String) : String :=
  joinWith " " (words.filter (· ≠ ""))

/-- The line text of `normalize_ocr`: the provided text, reconstructed
from the words when missing/blank. -/
def lineText (line : OLine) : String :=
  let text0 := line.text.getD ""
  if text0 = "" ∧ line.words ≠ [] then
    extract_text_from_words (line.words.map (·.text))
  else text0

/-- The per-line body of `normalize_ocr`'s traversal: `none` when the line
is skipped (blank text or fewer than four bbox coordinates). -/
def lineToRecord (image_width image_height : ℚ) (line : OLine) : Option LineRecord :=
  let text := lineText line
  if text = "" ∨ pyStrip text = "" then none
  else if line.bbox.length < 4 then none
  else
    let x1 := bb line.bbox 0; let y1 := bb line.bbox 1
    let x2 := bb line.bbox 2; let y2 := bb line.bbox 3
    let line_conf : Option ℚ :=
      match line.confidence with
      | some c => some c
      | none =>
        if line.words ≠ [] then
          let confidences := line.words.filterMap (·.confidence)
          if confidences = [] then none
          else some (confidences.sum / (confidences.length : ℚ))
        else none
    let center_x := (x1 + x2) / 2
    let center_y := (y1 + y2) / 2
    let tokens := pySplit text
    some
      { text := pyStrip text
        bbox := line.bbox
        line_conf := line_conf
        height := y2 - y1
        center_x := if image_width > 0 then center_x / image_width else 0.5
        center_y := if image_height > 0 then center_y / image_height else 0.5
        word_count := tokens.length
        char_len := text.length
        tokens := tokens
        caps_ratio := calculate_caps_ratio text }

/-- The traversal of `normalize_ocr` before the `maxLinesConsidered`
truncation. -/
def normalizeLines (ocr : OCRInput) : List LineRecord :=
  let image_width : ℚ := match ocr.image with | some i => (i.width : ℚ) | none => 1000
  let image_height : ℚ := match ocr.image with | some i => (i.height : ℚ) | none => 1000
  match ocr.chunks with
  | none => []
  | some ch =>
    ch.blocks.flatMap fun b =>
      b.paragraphs.flatMap fun p =>
        p.lines.filterMap (lineToRecord image_width image_height)

/-- `normalize_ocr` from `app/normalize.py`. -/
def normalize_ocr (ocr : OCRInput) (settings : ParseSettings) : List LineRecord :=
  if 0 < settings.max_lines_considered then
    (normalizeLines ocr).take settings.max_lines_considered.toNat
  else normalizeLines ocr

/-! ### `app/ranker.py` — `rank_candidates` -/

/-- `CandidateFeatures` from `app/models.py`. -/
structure CandidateFeatures where
  size_norm : ℚ
  center_norm : ℚ
  upper_third : ℚ
  lower_third : ℚ
  char_len : ℕ
  word_count : ℕ
  caps_ratio : ℚ
  hasByPrefix : Bool
  person_like : ℚ
  junk_like : ℚ
  line_conf : Option ℚ
deriving DecidableEq, Repr

/-- `Candidate` from `app/models.py`. -/
structure Candidate where
  text : String
  score : ℚ
  bbox : List ℚ
  features : CandidateFeatures
deriving DecidableEq, Repr

/-- `MethodInfo` from `app/models.py`. -/
structure MethodInfo where
  ranker : String
  verifier : String
  fallback : String
deriving DecidableEq, Repr

/-- The dictionary returned by `rank_candidates`. -/
structure RankResult where
  title : Option String
  author : Option String
  confidence : ℚ
  method : MethodInfo
  candTitle : List Candidate
  candAuthor : List Candidate
  warnings : List String
deriving DecidableEq, Repr

/-- Stable descending insertion by score, matching the stable
`sort(key=..., reverse=True)` of the source: an element is placed before
the first entry whose score is not strictly greater, so earlier entries
stay ahead of equal-scored later ones. -/
def insDesc (x : LineRecord × ℚ) : List (LineRecord × ℚ) → List (LineRecord × ℚ)
  | [] => [x]
  | y :: ys => if y.2 > x.2 then y :: insDesc x ys else x :: y :: ys

/-- Stable sort by score, descending (`title_scores.sort(key=..., reverse=True)`). -/
def sortDesc : List (LineRecord × ℚ) → List (LineRecord × ℚ)
  | [] => []
  | x :: xs => insDesc x (sortDesc xs)

/-- The blank-line filter `[l for l in lines if l.text and l.text.strip()]`. -/
def blankFiltered (lines : List LineRecord) : List LineRecord :=
  lines.filter fun l => l.text ≠ "" && pyStrip l.text ≠ ""

/-- The junk filter stage of `rank_candidates`. -/
def junkFiltered (settings : ParseSettings) (fl : List LineRecord) : List LineRecord :=
  if settings.junk_filter then fl.filter (fun l => !is_junk l.text) else fl

/-- The lines entering the scoring loop: blank filter, junk filter, then
the optional merge pass. -/
def processedLines (settings : ParseSettings) (lines : List LineRecord) : List LineRecord :=
  let jl := junkFiltered settings (blankFiltered lines)
  if settings.merge_adjacent_lines then merge_adjacent_lines jl else jl

/-- `max((l.height for l in lines), default=1.0)`. -/
def maxHeightOf (lines : List LineRecord) : ℚ :=
  match lines.map (·.height) with
  | [] => 1
  | h :: hs => hs.foldl pymax h

/-- The scoring loop of `rank_candidates` (title pairs).  `title_score` is
evaluated on the record *before* `author_score`'s in-place `"by "` strip,
but the pair stores the mutated record (the list holds the same object the
author pass mutated). -/
def scoredTitlePairs (ml : List LineRecord) (mh ih : ℚ) : List (LineRecord × ℚ) :=
  ml.map fun l => ((author_score l mh ih).2, title_score l mh ih)

/-- The scoring loop of `rank_candidates` (author pairs). -/
def scoredAuthorPairs (ml : List LineRecord) (mh ih : ℚ) : List (LineRecord × ℚ) :=
  ml.map fun l => ((author_score l mh ih).2, (author_score l mh ih).1)

/-- `image_height` as read at `ranker.py:338`. -/
def imageHeightOf (ocr : OCRInput) : ℚ :=
  match ocr.image with | some i => (i.height : ℚ) | none => 1000

/-- `top_title_candidates` for a given call of `rank_candidates`. -/
def topTitleOf (lines : List LineRecord) (ocr : OCRInput) (settings : ParseSettings) :
    List (LineRecord × ℚ) :=
  let ml := processedLines settings lines
  (sortDesc (scoredTitlePairs ml (maxHeightOf ml) (imageHeightOf ocr))).take 5

/-- `top_author_candidates` for a given call of `rank_candidates`. -/
def topAuthorOf (lines : List LineRecord) (ocr : OCRInput) (settings : ParseSettings) :
    List (LineRecord × ℚ) :=
  let ml := processedLines settings lines
  (sortDesc (scoredAuthorPairs ml (maxHeightOf ml) (imageHeightOf ocr))).take 5

/-- Candidate features as built at `ranker.py:362-374` / `383-395`. -/
def mkFeatures (line : LineRecord) (mh : ℚ) : CandidateFeatures :=
  { size_norm := if mh > 0 then line.height / mh else 0
    center_norm := 1 - pyabs (line.center_x - 0.5) * 2
    upper_third := if line.center_y < 0.33 then 1 else 0
    lower_third := if line.center_y > 0.67 then 1 else 0
    char_len := line.char_len
    word_count := line.word_count
    caps_ratio := line.caps_ratio
    hasByPrefix := hasByPrefix line.text
    person_like := person_like_score line.text line.tokens
    junk_like := if is_junk line.text then 1 else 0
    line_conf := line.line_conf }

/-- A title `Candidate` object. -/
def mkTitleCandidate (p : LineRecord × ℚ) (mh : ℚ) : Candidate :=
  { text := p.1.text, score := p.2, bbox := p.1.bbox, features := mkFeatures p.1 mh }

/-- An author `Candidate` object (display text has the `"by "` prefix
stripped a second time). -/
def mkAuthorCandidate (p : LineRecord × ℚ) (mh : ℚ) : Candidate :=
  { text := stripByTrim p.1.text, score := p.2, bbox := p.1.bbox
    features := mkFeatures p.1 mh }

/-- The identity guard and overlap guard of `rank_candidates`
(`ranker.py:400-427`).  Inside the overlap guard the author-runner-up
search is gated on `if iou > 0.2` where `iou` is the *original* pair's
value (the source never recomputes it after the title search), so that
inner test mirrors the stale re-test of line 422. -/
def bestPicks (tt ta : List (LineRecord × ℚ)) : Option LineRecord × Option LineRecord :=
  let idPair : Option LineRecord × Option LineRecord :=
    match tt, ta with
    | (t0, ts0) :: trest, (a0, as0) :: arest =>
      if pyLower t0.text = pyLower a0.text then
        if ts0 > as0 then (some t0, (arest.head?).map (·.1))
        else ((trest.head?).map (·.1), some a0)
      else (some t0, some a0)
    | (t0, _) :: _, [] => (some t0, none)
    | [], (a0, _) :: _ => (none, some a0)
    | [], [] => (none, none)
  match idPair with
  | (some t, some a) =>
    let iou := calculate_bbox_iou t.bbox a.bbox
    if iou > 0.2 then
      let t' := match (tt.drop 1).find? (fun p => calculate_bbox_iou p.1.bbox a.bbox < 0.2) with
        | some p => p.1
        | none => t
      let a' := if iou > 0.2 then
          match (ta.drop 1).find? (fun p => calculate_bbox_iou t'.bbox p.1.bbox < 0.2) with
          | some p => p.1
          | none => a
        else a
      (some t', some a')
    else (some t, some a)
  | other => other

/-- The full best-pick resolution (identity guard, overlap guard, swap
heuristic, `ranker.py:400-437`); the boolean records whether the swap
warning is emitted. -/
def resolveBest (tt ta : List (LineRecord × ℚ)) :
    Option LineRecord × Option LineRecord × Bool :=
  match bestPicks tt ta with
  | (some t, some a) =>
    if person_like_score t.text t.tokens > 0.6 ∧ person_like_score a.text a.tokens < 0.3 then
      match ta.head?, tt.head? with
      | some pa, some pt =>
        if pa.2 > pt.2 * 0.8 then (some a, some t, true) else (some t, some a, false)
      | _, _ => (some t, some a, false)
    else (some t, some a, false)
  | (x, y) => (x, y, false)

/-- The per-category confidence of `ranker.py:440-461`. -/
def confOf (top : List (LineRecord × ℚ)) (best : Option LineRecord) : ℚ :=
  match top with
  | [] => 0
  | (_, s0) :: rest =>
    let top2 : ℚ := match rest with | [] => 0 | (_, s1) :: _ => s1
    let margin := if top2 > 0 then s0 - top2 else s0
    let c := pymin 1 (margin * 2)
    match best with
    | some b => if confTruthy b.line_conf then (c + confVal b.line_conf / 100) / 2 else c
    | none => c

/-- The constant `MethodInfo` of the heuristic ranker. -/
def heuristicMethod : MethodInfo :=
  { ranker := "heuristic_v1", verifier := "none", fallback := "none" }

/-- `rank_candidates` from `app/ranker.py`. -/
def rank_candidates (lines : List LineRecord) (ocr : OCRInput)
    (settings : ParseSettings) : RankResult :=
  let fl := blankFiltered lines
  if fl = [] then
    { title := none, author := none, confidence := 0, method := heuristicMethod
      candTitle := [], candAuthor := []
      warnings := ["No valid lines found in OCR"] }
  else
    let jl := junkFiltered settings fl
    let junkWarn : List String :=
      if settings.junk_filter && decide (jl.length < fl.length) then
        [s!"Filtered {fl.length - jl.length} junk lines"]
      else []
    let ml := if settings.merge_adjacent_lines then merge_adjacent_lines jl else jl
    let ih := imageHeightOf ocr
    let mh := maxHeightOf ml
    let tt := (sortDesc (scoredTitlePairs ml mh ih)).take 5
    let ta := (sortDesc (scoredAuthorPairs ml mh ih)).take 5
    let picks := resolveBest tt ta
    let swapWarn : List String :=
      if picks.2.2 then ["Applied swap logic: title/author may be reversed"] else []
    let title_conf := confOf tt picks.1
    let author_conf := confOf ta picks.2.1
    { title := picks.1.map (·.text)
      author := picks.2.1.map (·.text)
      confidence := (title_conf + author_conf) / 2
      method := heuristicMethod
      candTitle := tt.map (mkTitleCandidate · mh)
      candAuthor := ta.map (mkAuthorCandidate · mh)
      warnings := junkWarn ++ swapWarn }

/-! ### `app/similarity.py` -/

/-- `token_set_ratio` from `app/similarity.py` — the library-free fallback
branch (Jaccard similarity over lowercased whitespace tokens).  The
rapidfuzz branch calls an external library and is outside the embedded
code; every claim below is insensitive to the numeric values produced
here. -/
def token_set_ratio (s1 s2 : String) : ℚ :=
  if s1 = "" ∨ s2 = "" then 0
  else
    let tokens1 := (pySplit (pyLower s1)).dedup
    let tokens2 := (pySplit (pyLower s2)).dedup
    if tokens1 = [] ∨ tokens2 = [] then 0
    else
      let inter := tokens1.filter (tokens2.contains ·)
      let union := tokens1 ++ tokens2.filter (fun t => !tokens1.contains t)
      if union.length > 0 then (inter.length : ℚ) / (union.length : ℚ) else 0

/-- `weighted_similarity` from `app/similarity.py`. -/
def weighted_similarity (title1 title2 author1 author2 : String)
    (title_weight : ℚ) : ℚ :=
  title_weight * token_set_ratio title1 title2 +
    (1 - title_weight) * token_set_ratio author1 author2

/-! ### `app/verifier` — providers and orchestrator -/

/-- A parsed Google Books volume (`item["volumeInfo"]` fields read by the
provider, with the dict-`get` defaults baked in). -/
structure GItem where
  title : String
  authors : List String
  identifiers : List (String × String)
  id : Option String
deriving DecidableEq, Repr

/-- A parsed Open Library search document. -/
structure ODoc where
  title : String
  author_name : List String
  isbn : List String
  key : String
deriving DecidableEq, Repr

/-- One HTTP response of the modelled network: `timeout` / `exc` stand for
`client.get` raising after the request was issued (the source increments
`queries_made` only after a get returns), `ok` carries the status code and
the parsed payload, read as Google items or Open Library docs by the
requesting provider. -/
inductive Resp where
  | timeout
  | exc (msg : String)
  | ok (status : ℕ) (gitems : List GItem) (odocs : List ODoc)
deriving DecidableEq, Repr

/-- An entry of the shared `all_queries` log. -/
structure QLog where
  provider : String
  query : String
  qtype : String
deriving DecidableEq, Repr

/-- An entry of the shared `top_hits` log. -/
structure THit where
  provider : String
  title : String
  author : String
  score : ℚ
deriving DecidableEq, Repr

/-- `VerificationCanonical` from `app/models.py`. -/
structure Canonical where
  title : String
  author : String
  isbn13 : Option String
  source_id : Option String
deriving DecidableEq, Repr

/-- The dict a provider returns to the orchestrator. -/
structure ProvResult where
  matched : Bool
  canonical : Option Canonical
  match_confidence : ℚ
  queries_made : ℤ
  notes : List String
deriving DecidableEq, Repr

/-- The request-scoped world state threaded through provider calls:
the number of requests issued so far (the oracle index) and the shared
`all_queries` / `top_hits` logs passed by reference in the source. -/
structure Wstate where
  issued : ℕ
  logs : List QLog
  hits : List THit
deriving DecidableEq, Repr

/-- `_extract_isbn13` from `app/verifier/google_books.py`. -/
def extract_isbn13 (identifiers : List (String × String)) : Option String :=
  match identifiers.find? (fun p => p.1 = "ISBN_13") with
  | some p => some p.2
  | none => none

/-- The per-item loop over Google results: update best match / best score
and append to `top_hits`. -/
def gbScanItems (title vquery : String) (author2 : String) (tw : ℚ)
    (items : List GItem) (best : Option Canonical × ℚ) (hits : List THit) :
    (Option Canonical × ℚ) × List THit :=
  items.foldl
    (fun acc it =>
      let volAuthor := it.authors.headD ""
      let score := weighted_similarity title it.title author2 volAuthor tw
      let hits' := acc.2 ++ [{ provider := "google_books", title := it.title
                               author := volAuthor, score := score }]
      if score > acc.1.2 then
        ((some { title := it.title, author := volAuthor
                 isbn13 := extract_isbn13 it.identifiers, source_id := it.id },
          score), hits')
      else (acc.1, hits'))
    (best, hits)

/-- Outcome of the strict phase of `verify_google_books`: either the early
`return` of the 429 branch, or the state carried into the title-only
phase. -/
inductive GBPhase1 where
  | done (r : ProvResult) (st : Wstate)
  | go (qm : ℤ) (best : Option Canonical × ℚ) (notes : List String) (st : Wstate)

/-- The strict-query phase of `verify_google_books` (lines 27–79). -/
def gbStrict (O : ℕ → Resp) (title author : Option String) (max_queries : ℤ)
    (st : Wstate) : GBPhase1 :=
  if truthyStr title && truthyStr author && decide ((0 : ℤ) < max_queries) then
    let t := title.getD ""
    let a := author.getD ""
    let query := t ++ " " ++ a
    match O st.issued with
    | .timeout =>
      .go 0 (none, 0) ["Google Books request timed out"] { st with issued := st.issued + 1 }
    | .exc m =>
      .go 0 (none, 0) [s!"Google Books error: {m}"] { st with issued := st.issued + 1 }
    | .ok status gitems _ =>
      let st1 : Wstate :=
        { issued := st.issued + 1
          logs := st.logs ++ [{ provider := "google_books", query := query, qtype := "strict" }]
          hits := st.hits }
      if status = 200 then
        let (best, hits') := gbScanItems t query a 0.6 gitems (none, 0) st1.hits
        .go 1 best [] { st1 with hits := hits' }
      else if status = 429 then
        .done { matched := false, canonical := none, match_confidence := 0
                queries_made := 1, notes := ["Google Books rate limited"] } st1
      else
        .go 1 (none, 0) [s!"Google Books returned {status}"] st1
  else .go 0 (none, 0) [] st

/-- The title-only phase of `verify_google_books` (lines 82–125):
issued only when the strict best score is below 0.7 and budget remains;
`queries_made` is incremented only when the request returns. -/
def gbTitleOnly (O : ℕ → Resp) (title author : Option String) (max_queries : ℤ)
    (qm : ℤ) (best : Option Canonical × ℚ) (notes : List String) (st : Wstate) :
    ℤ × (Option Canonical × ℚ) × List String × Wstate :=
  let t := title.getD ""
  if best.2 < 0.7 && truthyStr title && decide (qm < max_queries) then
    match O st.issued with
    | .timeout =>
      (qm, best, notes ++ ["Google Books title-only error: timeout"],
       { st with issued := st.issued + 1 })
    | .exc m =>
      (qm, best, notes ++ [s!"Google Books title-only error: {m}"],
       { st with issued := st.issued + 1 })
    | .ok status gitems _ =>
      let stb : Wstate :=
        { issued := st.issued + 1
          logs := st.logs ++
            [{ provider := "google_books", query := t, qtype := "title_only" }]
          hits := st.hits }
      if status = 200 then
        let (b', hits') := gbScanItems t t (author.getD "") 0.8 gitems best stb.hits
        (qm + 1, b', notes, { stb with hits := hits' })
      else (qm + 1, best, notes, stb)
  else (qm, best, notes, st)

/-- The final `if best_match and best_score >= 0.6` block closing both
providers (`google_books.py:128-143` and `open_library.py:129-144` are
textually identical). -/
def provFinal (qm : ℤ) (best : Option Canonical × ℚ) (notes : List String)
    (st : Wstate) : ProvResult × Wstate :=
  match best.1 with
  | some canonical =>
    if (0.6 : ℚ) ≤ best.2 then
      ({ matched := true, canonical := some canonical, match_confidence := best.2
         queries_made := qm, notes := notes }, st)
    else
      ({ matched := false, canonical := none, match_confidence := 0
         queries_made := qm, notes := notes }, st)
  | none =>
    ({ matched := false, canonical := none, match_confidence := 0
       queries_made := qm, notes := notes }, st)

/-- `verify_google_books` from `app/verifier/google_books.py`. -/
def verify_google_books (O : ℕ → Resp) (title author : Option String)
    (max_queries : ℤ) (st : Wstate) : ProvResult × Wstate :=
  if !truthyStr title && !truthyStr author then
    ({ matched := false, canonical := none, match_confidence := 0
       queries_made := 0, notes := ["No title or author"] }, st)
  else
    match gbStrict O title author max_queries st with
    | .done r st' => (r, st')
    | .go qm best notes st' =>
      let r := gbTitleOnly O title author max_queries qm best notes st'
      provFinal r.1 r.2.1 r.2.2.1 r.2.2.2

/-- The per-doc loop over Open Library results. -/
def olScanDocs (title : String) (author2 : String) (tw : ℚ)
    (docs : List ODoc) (best : Option Canonical × ℚ) (hits : List THit) :
    (Option Canonical × ℚ) × List THit :=
  docs.foldl
    (fun acc doc =>
      let volAuthor := doc.author_name.headD ""
      let score := weighted_similarity title doc.title author2 volAuthor tw
      let hits' := acc.2 ++ [{ provider := "open_library", title := doc.title
                               author := volAuthor, score := score }]
      if score > acc.1.2 then
        ((some { title := doc.title, author := volAuthor
                 isbn13 := doc.isbn.head?, source_id := some doc.key }, score), hits')
      else (acc.1, hits'))
    (best, hits)

/-- The strict-query phase of `verify_open_library` (lines 27–78); unlike
the Google provider there is no 429 early return, any non-200 status is
just noted. -/
def olStrict (O : ℕ → Resp) (title author : Option String) (max_queries : ℤ)
    (st : Wstate) : ℤ × (Option Canonical × ℚ) × List String × Wstate :=
  let t := title.getD ""
  let a := author.getD ""
  if truthyStr title && truthyStr author && decide ((0 : ℤ) < max_queries) then
    let query := t ++ " " ++ a
    match O st.issued with
    | .timeout =>
      (0, (none, 0), ["Open Library request timed out"],
       { st with issued := st.issued + 1 })
    | .exc m =>
      (0, (none, 0), [s!"Open Library error: {m}"],
       { st with issued := st.issued + 1 })
    | .ok status _ docs =>
      let sta : Wstate :=
        { issued := st.issued + 1
          logs := st.logs ++
            [{ provider := "open_library", query := query, qtype := "strict" }]
          hits := st.hits }
      if status = 200 then
        let (best, hits') := olScanDocs t a 0.6 docs (none, 0) sta.hits
        (1, best, [], { sta with hits := hits' })
      else (1, (none, 0), [s!"Open Library returned {status}"], sta)
  else (0, (none, 0), [], st)

/-- The title-only phase of `verify_open_library` (lines 81–126). -/
def olTitleOnly (O : ℕ → Resp) (title author : Option String) (max_queries : ℤ)
    (qm : ℤ) (best : Option Canonical × ℚ) (notes : List String) (st : Wstate) :
    ℤ × (Option Canonical × ℚ) × List String × Wstate :=
  let t := title.getD ""
  let a := author.getD ""
  if best.2 < 0.7 && truthyStr title && decide (qm < max_queries) then
    match O st.issued with
    | .timeout =>
      (qm, best, notes ++ ["Open Library title-only error: timeout"],
       { st with issued := st.issued + 1 })
    | .exc m =>
      (qm, best, notes ++ [s!"Open Library title-only error: {m}"],
       { st with issued := st.issued + 1 })
    | .ok status _ docs =>
      let stb : Wstate :=
        { issued := st.issued + 1
          logs := st.logs ++
            [{ provider := "open_library", query := t, qtype := "title_only" }]
          hits := st.hits }
      if status = 200 then
        let (b', hits') := olScanDocs t a 0.8 docs best stb.hits
        (qm + 1, b', notes, { stb with hits := hits' })
      else (qm + 1, best, notes, stb)
  else (qm, best, notes, st)

/-- `verify_open_library` from `app/verifier/open_library.py`. -/
def verify_open_library (O : ℕ → Resp) (title author : Option String)
    (max_queries : ℤ) (st : Wstate) : ProvResult × Wstate :=
  if !truthyStr title && !truthyStr author then
    ({ matched := false, canonical := none, match_confidence := 0
       queries_made := 0, notes := ["No title or author"] }, st)
  else
    let s1 := olStrict O title author max_queries st
    let r := olTitleOnly O title author max_queries s1.1 s1.2.1 s1.2.2.1 s1.2.2.2
    provFinal r.1 r.2.1 r.2.2.1 r.2.2.2

/-- `Verification` from `app/models.py`. -/
structure Verification where
  attempted : Bool
  matched : Bool
  provider : Option String
  match_confidence : Option ℚ
  canonical : Option Canonical
  notes : List String
  debug : Option (List QLog × List THit)
deriving DecidableEq, Repr

/-- Result of `verify_candidates`, extended with two ghost observations of
the run: `counted` is the final `queries_made` accumulator of the
orchestrator, `issued` the number of HTTP requests actually sent. -/
structure VCOut where
  ver : Verification
  counted : ℤ
  issued : ℕ
deriving DecidableEq, Repr

/-- The `"No match found in any provider"` result (lines 70–76). -/
def vcNoMatch (st : Wstate) : Verification :=
  { attempted := true, matched := false, provider := none, match_confidence := none
    canonical := none, notes := ["No match found in any provider"]
    debug := some (st.logs, st.hits) }

/-- The matched early return of `verify_candidates` (lines 50–62). -/
def vcMatched (provider : String) (r : ProvResult) (st : Wstate) : Verification :=
  { attempted := true, matched := true, provider := some provider
    match_confidence := some r.match_confidence, canonical := r.canonical
    notes := r.notes, debug := some (st.logs, st.hits) }

/-- The provider loop of `verify_candidates`.  The embedded providers are
total functions (the source catches every exception inside the provider),
so the orchestrator's own `except` branch is unreachable and not
modelled. -/
def vcGo (O : ℕ → Resp) (title author : Option String) (max_queries : ℤ) :
    List String → ℤ → Wstate → Verification × ℤ × Wstate
  | [], qm, st => (vcNoMatch st, qm, st)
  | p :: rest, qm, st =>
    if max_queries ≤ qm then (vcNoMatch st, qm, st)
    else if p = "google_books" then
      let rs := verify_google_books O title author (max_queries - qm) st
      if rs.1.matched then (vcMatched p rs.1 rs.2, qm + rs.1.queries_made, rs.2)
      else vcGo O title author max_queries rest (qm + rs.1.queries_made) rs.2
    else if p = "open_library" then
      let rs := verify_open_library O title author (max_queries - qm) st
      if rs.1.matched then (vcMatched p rs.1 rs.2, qm + rs.1.queries_made, rs.2)
      else vcGo O title author max_queries rest (qm + rs.1.queries_made) rs.2
    else vcGo O title author max_queries rest qm st

/-- `verify_candidates` from `app/verifier/__init__.py`. -/
def verify_candidates (O : ℕ → Resp) (title author : Option String)
    (settings : ParseSettings) : VCOut :=
  if !truthyStr title && !truthyStr author then
    { ver := { attempted := false, matched := false, provider := none
               match_confidence := none, canonical := none
               notes := ["No title or author to verify"], debug := none }
      counted := 0, issued := 0 }
  else
    let provider_order :=
      if settings.verify_provider_order = [] then ["google_books", "open_library"]
      else settings.verify_provider_order
    let max_queries := pyminI settings.max_verify_queries 6
    let r := vcGo O title author max_queries provider_order 0 ⟨0, [], []⟩
    { ver := r.1, counted := r.2.1, issued := r.2.2.issued }

/-! ### Concrete inputs used by the claim theorems -/

/-- Default-valued settings (the `ParseSettings` defaults of `app/models.py`). -/
def defaultSettings : ParseSettings :=
  { conf_min_word := 30
    conf_min_line := 35
    max_lines_considered := 80
    merge_adjacent_lines := true
    junk_filter := true
    verify := true
    verify_provider_order := ["google_books", "open_library"]
    max_verify_queries := 6 }

/-- Settings with the junk filter and the merge pass disabled. -/
def plainSettings : ParseSettings :=
  { defaultSettings with merge_adjacent_lines := false, junk_filter := false }

/-- A one-line OCR payload with the given line. -/
def oneLineOcr (ln : OLine) : OCRInput :=
  { image := none
    chunks := some
      { blocks :=
          [{ block_num := 1
             bbox := [0, 0, 1, 1]
             paragraphs :=
               [{ par_num := 1
                  bbox := [0, 0, 1, 1]
                  lines := [ln] }] }] } }

/-- C1 failing input: two lines with the same text (both score 0.82 for
title and 0.42 for author) plus a sixteen-word line with distinct text
(scores 0.58 / 0.13). -/
def c1Lines : List LineRecord :=
  [⟨"alpha", [0, 0, 10, 10], none, 10, 0.5, 0.5, 1, 5, ["alpha"], 0⟩,
   ⟨"alpha", [100, 0, 110, 10], none, 10, 0.5, 0.5, 1, 5, ["alpha"], 0⟩,
   ⟨"beta beta beta beta beta beta beta beta beta beta beta beta beta beta beta beta",
    [200, 0, 210, 10], none, 10, 0.5, 0.5, 16, 79,
    ["beta", "beta", "beta", "beta", "beta", "beta", "beta", "beta", "beta", "beta",
     "beta", "beta", "beta", "beta", "beta", "beta"], 0⟩]

/-- C2 failing input: the top title `alpha` and top author `gamma` share
overlapping boxes (IoU 0.3), the title runner-up `beta` is disjoint from
`gamma`, and `delta` is disjoint from everything. -/
def c2Lines : List LineRecord :=
  [⟨"alpha", [0, 0, 100, 100], none, 100, 0.5, 0.5, 1, 5, ["alpha"], 0⟩,
   ⟨"beta", [200, 0, 300, 90], none, 90, 0.5, 0.5, 1, 4, ["beta"], 0⟩,
   ⟨"gamma", [0, 0, 100, 30], none, 30, 0.5, 0.8, 1, 5, ["gamma"], 0⟩,
   ⟨"delta", [400, 0, 500, 30], none, 30, 0.5, 0.8, 1, 5, ["delta"], 0⟩]

/-- C3 counterexample settings: one provider, a budget of one query. -/
def c3Settings : ParseSettings :=
  { defaultSettings with verify_provider_order := ["google_books"], max_verify_queries := 1 }

/-- C4 witness oracle: every request returns a perfectly matching volume. -/
def c4Oracle : ℕ → Resp := fun _ => .ok 200 [⟨"1984", ["George Orwell"], [], some "gid"⟩] []

/-- C5 witness title pair: a person-like top title candidate. -/
def c5wTitle : LineRecord × ℚ :=
  (⟨"John Smith", [0, 0, 10, 10], none, 10, 0.5, 0.5, 2, 10, ["John", "Smith"], 2/9⟩, 1)

/-- C5 witness author pair: a non-person-like top author candidate whose
raw score strictly exceeds 0.8 times the title's. -/
def c5wAuthor : LineRecord × ℚ :=
  (⟨"the 99", [100, 0, 110, 10], none, 10, 0.5, 0.5, 2, 6, ["the", "99"], 0⟩, 0.9)

/-- C5 counterexample input: two junk lines whose title and author scores
are all exactly 0, one person-like and one not. -/
def c5Lines : List LineRecord :=
  [⟨"THE 99 ISBN", [0, 5, 10, 5], none, 0, 1, 0.5, 3, 11, ["THE", "99", "ISBN"], 1⟩,
   ⟨"JOHN SMITH ISBN", [100, 5, 110, 5], none, 0, 1, 0.5, 3, 15, ["JOHN", "SMITH", "ISBN"], 1⟩]

/-- Every consecutive pair of `l` is separated by a vertical gap exceeding
`0.6 * avg` (the merge pass's look-ahead break condition). -/
def gapsExceed (avg : ℚ) : List LineRecord → Bool
  | [] => true
  | [_] => true
  | a :: b :: rest =>
    decide (pyabs (bb b.bbox 1 - bb a.bbox 3) > 0.6 * avg) && gapsExceed avg (b :: rest)

/-! ### Helper lemmas -/

theorem provFinal_queries (qm : ℤ) (best : Option Canonical × ℚ)
    (notes : List String) (st : Wstate) :
    (provFinal qm best notes st).1.queries_made = qm := by
  obtain ⟨bm, bs⟩ := best
  cases bm with
  | none => rfl
  | some c =>
    simp only [provFinal]
    split <;> rfl

theorem provFinal_matched (qm : ℤ) (best : Option Canonical × ℚ)
    (notes : List String) (st : Wstate) :
    (provFinal qm best notes st).1.matched = true →
      (provFinal qm best notes st).1.canonical.isSome = true ∧
      (0.6 : ℚ) ≤ (provFinal qm best notes st).1.match_confidence := by
  obtain ⟨bm, bs⟩ := best
  cases bm with
  | none => simp [provFinal]
  | some c =>
    simp only [provFinal]
    split
    · intro _; simp_all
    · simp

theorem gbStrict_done (O : ℕ → Resp) (t a : Option String) (b : ℤ) (st : Wstate)
    (r : ProvResult) (st' : Wstate) (h : gbStrict O t a b st = .done r st') :
    r.queries_made = 1 ∧ r.matched = false ∧ 0 < b := by
  unfold gbStrict at h
  split at h
  · next hcond =>
    have hb : (0 : ℤ) < b := by
      simp only [Bool.and_eq_true, decide_eq_true_eq] at hcond
      exact hcond.2
    split at h
    · exact absurd h (by simp)
    · exact absurd h (by simp)
    · split at h
      · exact absurd h (by simp)
      · split at h
        · obtain ⟨h1, h2⟩ := GBPhase1.done.inj h
          subst h1
          exact ⟨rfl, rfl, hb⟩
        · exact absurd h (by simp)
  · exact absurd h (by simp)

theorem gbStrict_go (O : ℕ → Resp) (t a : Option String) (b : ℤ) (st : Wstate)
    (qm : ℤ) (best : Option Canonical × ℚ) (notes : List String) (st' : Wstate)
    (h : gbStrict O t a b st = .go qm best notes st') :
    qm = 0 ∨ (qm = 1 ∧ 0 < b) := by
  unfold gbStrict at h
  split at h
  · next hcond =>
    have hb : (0 : ℤ) < b := by
      simp only [Bool.and_eq_true, decide_eq_true_eq] at hcond
      exact hcond.2
    split at h
    · left; exact (GBPhase1.go.inj h).1.symm
    · left; exact (GBPhase1.go.inj h).1.symm
    · split at h
      · right; exact ⟨(GBPhase1.go.inj h).1.symm, hb⟩
      · split at h
        · exact absurd h (by simp)
        · right; exact ⟨(GBPhase1.go.inj h).1.symm, hb⟩
  · left; exact (GBPhase1.go.inj h).1.symm

theorem gbTitleOnly_queries (O : ℕ → Resp) (t a : Option String) (b : ℤ)
    (qm : ℤ) (best : Option Canonical × ℚ) (notes : List String) (st : Wstate) :
    (gbTitleOnly O t a b qm best notes st).1 = qm ∨
    ((gbTitleOnly O t a b qm best notes st).1 = qm + 1 ∧ qm < b) := by
  unfold gbTitleOnly
  split
  · next hcond =>
    have hb : qm < b := by
      simp only [Bool.and_eq_true, decide_eq_true_eq] at hcond
      exact hcond.2
    split
    · left; rfl
    · left; rfl
    · split
      · right; exact ⟨rfl, hb⟩
      · right; exact ⟨rfl, hb⟩
  · left; rfl

theorem olStrict_queries (O : ℕ → Resp) (t a : Option String) (b : ℤ) (st : Wstate) :
    (olStrict O t a b st).1 = 0 ∨ ((olStrict O t a b st).1 = 1 ∧ 0 < b) := by
  unfold olStrict
  split
  · next hcond =>
    have hb : (0 : ℤ) < b := by
      simp only [Bool.and_eq_true, decide_eq_true_eq] at hcond
      exact hcond.2
    split
    · left; rfl
    · left; rfl
    · split
      · right; exact ⟨rfl, hb⟩
      · right; exact ⟨rfl, hb⟩
  · left; rfl

theorem olTitleOnly_queries (O : ℕ → Resp) (t a : Option String) (b : ℤ)
    (qm : ℤ) (best : Option Canonical × ℚ) (notes : List String) (st : Wstate) :
    (olTitleOnly O t a b qm best notes st).1 = qm ∨
    ((olTitleOnly O t a b qm best notes st).1 = qm + 1 ∧ qm < b) := by
  unfold olTitleOnly
  split
  · next hcond =>
    have hb : qm < b := by
      simp only [Bool.and_eq_true, decide_eq_true_eq] at hcond
      exact hcond.2
    split
    · left; rfl
    · left; rfl
    · split
      · right; exact ⟨rfl, hb⟩
      · right; exact ⟨rfl, hb⟩
  · left; rfl

theorem gb_queries_bound (O : ℕ → Resp) (t a : Option String) (b : ℤ) (st : Wstate) :
    0 ≤ (verify_google_books O t a b st).1.queries_made ∧
    (verify_google_books O t a b st).1.queries_made ≤ max b 0 := by
  unfold verify_google_books
  split
  · constructor <;> simp [le_max_iff]
  · split
    · next r st' heq =>
      obtain ⟨h1, _, hb⟩ := gbStrict_done O t a b st r st' heq
      simp only [h1]
      omega
    · next qm best notes st' heq =>
      have hqm := gbStrict_go O t a b st qm best notes st' heq
      have hto := gbTitleOnly_queries O t a b qm best notes st'
      rw [provFinal_queries]
      omega

theorem ol_queries_bound (O : ℕ → Resp) (t a : Option String) (b : ℤ) (st : Wstate) :
    0 ≤ (verify_open_library O t a b st).1.queries_made ∧
    (verify_open_library O t a b st).1.queries_made ≤ max b 0 := by
  unfold verify_open_library
  split
  · constructor <;> simp [le_max_iff]
  · have hs := olStrict_queries O t a b st
    have hto := olTitleOnly_queries O t a b (olStrict O t a b st).1
      (olStrict O t a b st).2.1 (olStrict O t a b st).2.2.1 (olStrict O t a b st).2.2.2
    rw [provFinal_queries]
    omega

theorem gb_matched (O : ℕ → Resp) (t a : Option String) (b : ℤ) (st : Wstate) :
    (verify_google_books O t a b st).1.matched = true →
      (verify_google_books O t a b st).1.canonical.isSome = true ∧
      (0.6 : ℚ) ≤ (verify_google_books O t a b st).1.match_confidence := by
  unfold verify_google_books
  split
  · simp
  · split
    · next r st' heq =>
      obtain ⟨_, h2, _⟩ := gbStrict_done O t a b st r st' heq
      intro hm
      exact absurd hm (by simp [h2])
    · next qm best notes st' heq =>
      exact provFinal_matched _ _ _ _

theorem ol_matched (O : ℕ → Resp) (t a : Option String) (b : ℤ) (st : Wstate) :
    (verify_open_library O t a b st).1.matched = true →
      (verify_open_library O t a b st).1.canonical.isSome = true ∧
      (0.6 : ℚ) ≤ (verify_open_library O t a b st).1.match_confidence := by
  unfold verify_open_library
  split
  · simp
  · exact provFinal_matched _ _ _ _

theorem vcGo_counted_bound (O : ℕ → Resp) (t a : Option String) (B : ℤ) :
    ∀ (ps : List String) (qm : ℤ) (st : Wstate), 0 ≤ qm → qm ≤ max 0 B →
      0 ≤ (vcGo O t a B ps qm st).2.1 ∧ (vcGo O t a B ps qm st).2.1 ≤ max 0 B := by
  intro ps
  induction ps with
  | nil => intro qm st h0 h1; exact ⟨h0, h1⟩
  | cons p rest ih =>
    intro qm st h0 h1
    unfold vcGo
    split
    · exact ⟨h0, h1⟩
    · next hlt =>
      split
      · have hq := gb_queries_bound O t a (B - qm) st
        dsimp only
        split
        · dsimp only
          constructor <;> omega
        · exact ih _ _ (by omega) (by omega)
      · split
        · have hq := ol_queries_bound O t a (B - qm) st
          dsimp only
          split
          · dsimp only
            constructor <;> omega
          · exact ih _ _ (by omega) (by omega)
        · exact ih qm st h0 h1

theorem vcGo_matched (O : ℕ → Resp) (t a : Option String) (B : ℤ) :
    ∀ (ps : List String) (qm : ℤ) (st : Wstate),
      (vcGo O t a B ps qm st).1.matched = true →
        (vcGo O t a B ps qm st).1.canonical.isSome = true ∧
        ∃ c, (vcGo O t a B ps qm st).1.match_confidence = some c ∧ (0.6 : ℚ) ≤ c := by
  intro ps
  induction ps with
  | nil => intro qm st h; exact absurd h (by simp [vcGo, vcNoMatch])
  | cons p rest ih =>
    intro qm st
    unfold vcGo
    split
    · intro h; exact absurd h (by simp [vcNoMatch])
    · split
      · dsimp only
        split
        · next hm =>
          intro _
          obtain ⟨hc, hconf⟩ := gb_matched O t a (B - qm) st hm
          exact ⟨by simpa [vcMatched] using hc, _, by simp [vcMatched], hconf⟩
        · exact ih _ _
      · split
        · dsimp only
          split
          · next hm =>
            intro _
            obtain ⟨hc, hconf⟩ := ol_matched O t a (B - qm) st hm
            exact ⟨by simpa [vcMatched] using hc, _, by simp [vcMatched], hconf⟩
          · exact ih _ _
        · exact ih _ _

theorem mergeAll_of_gaps (avg : ℚ) :
    ∀ (l : List LineRecord) (fuel : ℕ), l.length ≤ fuel →
      gapsExceed avg l = true → mergeAll fuel avg l = l := by
  intro l
  induction l with
  | nil => intro fuel _ _; cases fuel <;> rfl
  | cons x rest ih =>
    intro fuel hlen hchain
    match fuel with
    | 0 => simp at hlen
    | fuel + 1 =>
      cases rest with
      | nil => simp [mergeAll, mergeRun]
      | cons y rest' =>
        rw [gapsExceed, Bool.and_eq_true, decide_eq_true_eq] at hchain
        have hrun : mergeRun avg x (y :: rest') = (x, y :: rest') := by
          unfold mergeRun
          rw [if_pos hchain.1]
        simp only [mergeAll, hrun]
        congr 1
        exact ih fuel (by simpa using hlen) hchain.2

theorem dropWhile_head_false (p : Char → Bool) :
    ∀ (l : List Char) (c : Char) (r : List Char), l.dropWhile p = c :: r → p c = false := by
  intro l
  induction l with
  | nil => intro c r h; simp [List.dropWhile] at h
  | cons a as ih =>
    intro c r h
    rw [List.dropWhile_cons] at h
    by_cases hp : p a
    · rw [if_pos hp] at h
      exact ih c r h
    · rw [if_neg hp] at h
      obtain ⟨h1, _⟩ := List.cons.inj h
      subst h1
      simpa using hp

theorem pyStripCL_has_ink (cs : List Char) (h : pyStripCL cs ≠ []) :
    (pyStripCL cs).any (fun c => !c.isWhitespace) = true := by
  cases hB : (cs.dropWhile Char.isWhitespace).reverse.dropWhile Char.isWhitespace with
  | nil => exact absurd (show pyStripCL cs = [] by unfold pyStripCL; rw [hB]; rfl) h
  | cons c r =>
    have hc : c.isWhitespace = false := dropWhile_head_false _ _ c r hB
    have hmem : c ∈ pyStripCL cs := by
      unfold pyStripCL
      rw [hB]
      simp
    exact List.any_eq_true.mpr ⟨c, hmem, by simp [hc]⟩

theorem pyStrip_has_ink (s : String) (h : pyStrip s ≠ "") :
    (pyStrip s).data.any (fun c => !c.isWhitespace) = true := by
  apply pyStripCL_has_ink
  intro hnil
  apply h
  show (⟨pyStripCL s.data⟩ : String) = ""
  rw [hnil]

theorem lineToRecord_props (iw ihh : ℚ) (ln : OLine) (r : LineRecord)
    (h : lineToRecord iw ihh ln = some r) :
    (r.text.data.any (fun c => !c.isWhitespace) = true) ∧ 4 ≤ r.bbox.length := by
  unfold lineToRecord at h
  by_cases hc1 : lineText ln = "" ∨ pyStrip (lineText ln) = ""
  · rw [if_pos hc1] at h
    simp at h
  · rw [if_neg hc1] at h
    by_cases hc2 : ln.bbox.length < 4
    · rw [if_pos hc2] at h
      simp at h
    · rw [if_neg hc2] at h
      obtain h3 := Option.some.inj h
      push_neg at hc1
      refine ⟨?_, ?_⟩
      · rw [← h3]
        exact pyStrip_has_ink _ hc1.2
      · rw [← h3]
        simpa using Nat.le_of_not_lt hc2

/-! ### Claim theorems -/

/-- C1: the claim states that `rank_candidates` never returns a title and
author that are case-insensitively equal when both are present.  This
theorem evaluates the code at the failing input `c1Lines`: the identity
guard keeps the higher-scoring side (`alpha`, title score 0.82 vs author
score 0.42) and replaces the author with the author runner-up, which is
the other `alpha` line; the replacement is never re-checked, so both the
returned title and author are `"alpha"` although the distinct-text
candidate `"beta …"` was available among the author candidates. -/
theorem c1_identity_guard_returns_equal_pair :
    (topAuthorOf c1Lines ⟨none, none⟩ plainSettings).map (fun p => p.1.text) =
      ["alpha", "alpha",
       "beta beta beta beta beta beta beta beta beta beta beta beta beta beta beta beta"] ∧
    (rank_candidates c1Lines ⟨none, none⟩ plainSettings).title = some "alpha" ∧
    (rank_candidates c1Lines ⟨none, none⟩ plainSettings).author = some "alpha" ∧
    pyLower "alpha" = pyLower "alpha" := by
  refine ⟨by decide, by decide, by decide, rfl⟩

/-- C2: the claim states that the author-runner-up search of the overlap
guard runs only if the pair is still overlapping after the title-runner-up
search.  This theorem evaluates the code at the failing input `c2Lines`:
the top pair (`alpha`, `gamma`) overlaps with IoU 0.3 > 0.2, the title
search swaps in `beta`, whose box is disjoint from `gamma` (IoU 0 ≤ 0.2,
so the pair is already resolved) — yet the code still runs the author
search (line 422 re-tests the stale pre-search IoU) and replaces `gamma`
by `delta`. -/
theorem c2_stale_overlap_check :
    calculate_bbox_iou [0, 0, 100, 100] [0, 0, 100, 30] = 0.3 ∧
    calculate_bbox_iou [200, 0, 300, 90] [0, 0, 100, 30] = 0 ∧
    (topTitleOf c2Lines ⟨none, none⟩ plainSettings).map (fun p => p.1.text) =
      ["alpha", "beta", "gamma", "delta"] ∧
    (topAuthorOf c2Lines ⟨none, none⟩ plainSettings).map (fun p => p.1.text) =
      ["gamma", "delta", "alpha", "beta"] ∧
    (rank_candidates c2Lines ⟨none, none⟩ plainSettings).title = some "beta" ∧
    (rank_candidates c2Lines ⟨none, none⟩ plainSettings).author = some "delta" := by
  refine ⟨by decide, by decide, by decide, by decide, by decide, by decide⟩

/-- C3 (amended): across one `verify_candidates` call the *counted* query
number — `queries_made`, incremented only for requests that return
without raising — never exceeds `min(settings.maxVerifyQueries, 6)`
(taken as 0 when that bound is negative).  Requests aborted by a
timeout/exception after being issued are not counted, so the number of
*issued* requests can exceed the bound (see `c3_counterexample`). -/
theorem c3_counted_queries_bound (O : ℕ → Resp) (title author : Option String)
    (settings : ParseSettings) :
    0 ≤ (verify_candidates O title author settings).counted ∧
    (verify_candidates O title author settings).counted ≤
      max 0 (pyminI settings.max_verify_queries 6) := by
  unfold verify_candidates
  split
  · exact ⟨le_refl 0, le_max_left 0 _⟩
  · dsimp only
    exact vcGo_counted_bound O title author _ _ 0 _ le_rfl (le_max_left 0 _)

/-- C3 counterexample: with `maxVerifyQueries = 1` and a network where
every request times out, `verify_google_books` issues the strict request
(uncounted, since `queries_made += 1` sits after the `await`), then the
title-only guard still sees `queries_made = 0 < 1` and issues a second
request: two external queries issued against a budget of
`min(1, 6) = 1`. -/
theorem c3_counterexample :
    pyminI c3Settings.max_verify_queries 6 = 1 ∧
    (verify_candidates (fun _ => Resp.timeout) (some "The Hobbit")
        (some "J. R. R. Tolkien") c3Settings).issued = 2 ∧
    ¬ ((verify_candidates (fun _ => Resp.timeout) (some "The Hobbit")
        (some "J. R. R. Tolkien") c3Settings).issued ≤ 1) := by
  refine ⟨by decide, by decide, by decide⟩

/-- C4: for every oracle, settings and title/author pair, `matched = true`
in the result of `verify_candidates` implies a present canonical record
and a match confidence of at least 0.6; the same holds for each
per-provider result of `verify_google_books` and `verify_open_library`. -/
theorem c4_matched_implies_canonical (O : ℕ → Resp) (title author : Option String)
    (settings : ParseSettings) (b : ℤ) (st : Wstate) :
    ((verify_candidates O title author settings).ver.matched = true →
      (verify_candidates O title author settings).ver.canonical.isSome = true ∧
      ∃ c, (verify_candidates O title author settings).ver.match_confidence = some c ∧
        (0.6 : ℚ) ≤ c) ∧
    ((verify_google_books O title author b st).1.matched = true →
      (verify_google_books O title author b st).1.canonical.isSome = true ∧
      (0.6 : ℚ) ≤ (verify_google_books O title author b st).1.match_confidence) ∧
    ((verify_open_library O title author b st).1.matched = true →
      (verify_open_library O title author b st).1.canonical.isSome = true ∧
      (0.6 : ℚ) ≤ (verify_open_library O title author b st).1.match_confidence) := by
  refine ⟨?_, gb_matched O title author b st, ol_matched O title author b st⟩
  unfold verify_candidates
  split
  · simp
  · dsimp only
    exact vcGo_matched O title author _ _ 0 _

/-- C4 witness: a matching oracle yields `matched = true` with a present
canonical record and confidence ≥ 0.6. -/
theorem c4_witness :
    (verify_candidates c4Oracle (some "1984") (some "George Orwell") c3Settings).ver.matched
        = true ∧
    (verify_candidates c4Oracle (some "1984") (some "George Orwell")
        c3Settings).ver.canonical.isSome = true ∧
    ∃ c, (verify_candidates c4Oracle (some "1984") (some "George Orwell")
        c3Settings).ver.match_confidence = some c ∧ (0.6 : ℚ) ≤ c :=
  ⟨by decide,
   ((c4_matched_implies_canonical c4Oracle (some "1984") (some "George Orwell") c3Settings 6
      ⟨0, [], []⟩).1 (by decide)).1,
   ((c4_matched_implies_canonical c4Oracle (some "1984") (some "George Orwell") c3Settings 6
      ⟨0, [], []⟩).1 (by decide)).2⟩

/-- C5 (amended): given the pair chosen after the identity and overlap
guards, `rank_candidates` swaps title and author (and records the swap
warning) exactly when the chosen title's person-likeness exceeds 0.6, the
chosen author's is below 0.3, and the top raw author-candidate score is
*strictly greater* than 0.8 times the top raw title-candidate score — the
source's `>` comparison, not the claim's "at least". -/
theorem c5_swap_strictly_greater (pt pa : LineRecord × ℚ) (tt' ta' : List (LineRecord × ℚ))
    (t a : LineRecord) (h : bestPicks (pt :: tt') (pa :: ta') = (some t, some a)) :
    resolveBest (pt :: tt') (pa :: ta') =
      if person_like_score t.text t.tokens > 0.6 ∧ person_like_score a.text a.tokens < 0.3 ∧
          pa.2 > pt.2 * 0.8
      then (some a, some t, true) else (some t, some a, false) := by
  unfold resolveBest
  rw [h]
  simp only [List.head?_cons]
  by_cases h1 : person_like_score t.text t.tokens > 0.6 ∧ person_like_score a.text a.tokens < 0.3
  · rw [if_pos h1]
    by_cases h2 : pa.2 > pt.2 * 0.8
    · rw [if_pos h2, if_pos ⟨h1.1, h1.2, h2⟩]
    · rw [if_neg h2, if_neg (by tauto)]
  · rw [if_neg h1, if_neg (by tauto)]

/-- C5 witness: with a person-like chosen title, a non-person-like chosen
author and author top score 0.9 > 1 × 0.8, the swap fires. -/
theorem c5_witness :
    bestPicks [c5wTitle] [c5wAuthor] = (some c5wTitle.1, some c5wAuthor.1) ∧
    resolveBest [c5wTitle] [c5wAuthor] = (some c5wAuthor.1, some c5wTitle.1, true) := by
  refine ⟨by decide, ?_⟩
  rw [c5_swap_strictly_greater c5wTitle c5wAuthor [] [] c5wTitle.1 c5wAuthor.1 (by decide)]
  decide

/-- C5 counterexample: at `c5Lines` both top raw scores are exactly 0, so
the top author score is "at least 0.8×" the top title score (0 ≥ 0.8·0)
and the chosen title/author satisfy the person-likeness conditions
(0.7 > 0.6 and 0 < 0.3), yet the code does not swap (its comparison is
strict `0 > 0`): the returned title stays the person-like line and no
swap warning is emitted, refuting the claim's "at least 0.8 times". -/
theorem c5_counterexample :
    (topTitleOf c5Lines ⟨none, none⟩ plainSettings).map (fun p => p.2) = [0, 0] ∧
    (topAuthorOf c5Lines ⟨none, none⟩ plainSettings).map (fun p => p.2) = [0, 0] ∧
    ((0 : ℚ) ≥ 0.8 * 0) ∧
    person_like_score "JOHN SMITH ISBN" ["JOHN", "SMITH", "ISBN"] > 0.6 ∧
    person_like_score "THE 99 ISBN" ["THE", "99", "ISBN"] < 0.3 ∧
    (rank_candidates c5Lines ⟨none, none⟩ plainSettings).title = some "JOHN SMITH ISBN" ∧
    (rank_candidates c5Lines ⟨none, none⟩ plainSettings).author = some "THE 99 ISBN" ∧
    (rank_candidates c5Lines ⟨none, none⟩ plainSettings).warnings = [] := by
  refine ⟨by decide, by decide, by norm_num, by decide, by decide, by decide, by decide,
    by decide⟩

/-- C6 (amended): when `merge_adjacent_lines` merges a pair, the merged
record recomputes text (concatenation), bbox (union), confidence (mean of
the two values when both are truthy, else the first truthy one), tokens
(concatenation), word count, char length and caps ratio from the merged
data — but its `height` is the *maximum* of the parents' heights (not the
union box's `y2 − y1`) and its `center_x`/`center_y` are the raw
pixel-space midpoints of the union box (not normalized by the image
dimensions, which the merge pass never receives). -/
theorem c6_merge_recomputes_features (l1 l2 : LineRecord)
    (hgap : pyabs (bb l2.bbox 1 - bb l1.bbox 3) ≤ 0.6 * avgHeightOf [l1, l2])
    (halign : pyabs (l2.center_x - l1.center_x) ≤ 0.1)
    (hw1 : l1.word_count ≤ 5) (hw2 : l2.word_count ≤ 5) :
    merge_adjacent_lines [l1, l2] = [mergeTwo l1 l2] ∧
    (mergeTwo l1 l2).text = l1.text ++ " " ++ l2.text ∧
    (mergeTwo l1 l2).bbox =
      [pymin (bb l1.bbox 0) (bb l2.bbox 0), pymin (bb l1.bbox 1) (bb l2.bbox 1),
       pymax (bb l1.bbox 2) (bb l2.bbox 2), pymax (bb l1.bbox 3) (bb l2.bbox 3)] ∧
    (mergeTwo l1 l2).line_conf =
      (if confTruthy l1.line_conf && confTruthy l2.line_conf then
        some ((confVal l1.line_conf + confVal l2.line_conf) / 2)
      else pyOrOpt l1.line_conf l2.line_conf) ∧
    (mergeTwo l1 l2).height = pymax l1.height l2.height ∧
    (mergeTwo l1 l2).center_x =
      (pymin (bb l1.bbox 0) (bb l2.bbox 0) + pymax (bb l1.bbox 2) (bb l2.bbox 2)) / 2 ∧
    (mergeTwo l1 l2).center_y =
      (pymin (bb l1.bbox 1) (bb l2.bbox 1) + pymax (bb l1.bbox 3) (bb l2.bbox 3)) / 2 ∧
    (mergeTwo l1 l2).tokens = l1.tokens ++ l2.tokens ∧
    (mergeTwo l1 l2).word_count = (l1.tokens ++ l2.tokens).length ∧
    (mergeTwo l1 l2).char_len = (l1.text ++ " " ++ l2.text).length ∧
    (mergeTwo l1 l2).caps_ratio = calculate_caps_ratio (l1.text ++ " " ++ l2.text) := by
  refine ⟨?_, rfl, rfl, rfl, rfl, rfl, rfl, rfl, rfl, rfl, rfl⟩
  show mergeAll 2 (avgHeightOf [l1, l2]) [l1, l2] = [mergeTwo l1 l2]
  have h1 : mergeRun (avgHeightOf [l1, l2]) l1 [l2] = (mergeTwo l1 l2, []) := by
    unfold mergeRun
    rw [if_neg (not_lt.mpr hgap), if_neg (not_lt.mpr halign), if_pos ⟨hw1, hw2⟩]
    rfl
  simp [mergeAll, h1]

/-- C6 witness: two stacked one-word lines merge into a single record with
averaged confidence `(80 + 60) / 2 = 70`. -/
theorem c6_witness :
    pyabs (bb [(0 : ℚ), 1, 10, 3] 1 - bb [(0 : ℚ), 0, 10, 1] 3) ≤
      0.6 * avgHeightOf
        [⟨"a", [0, 0, 10, 1], some 80, 1, 0.5, 0.5, 1, 1, ["a"], 0⟩,
         ⟨"b", [0, 1, 10, 3], some 60, 2, 0.5, 0.5, 1, 1, ["b"], 0⟩] ∧
    merge_adjacent_lines
      [⟨"a", [0, 0, 10, 1], some 80, 1, 0.5, 0.5, 1, 1, ["a"], 0⟩,
       ⟨"b", [0, 1, 10, 3], some 60, 2, 0.5, 0.5, 1, 1, ["b"], 0⟩] =
    [mergeTwo ⟨"a", [0, 0, 10, 1], some 80, 1, 0.5, 0.5, 1, 1, ["a"], 0⟩
       ⟨"b", [0, 1, 10, 3], some 60, 2, 0.5, 0.5, 1, 1, ["b"], 0⟩] :=
  ⟨by decide,
   (c6_merge_recomputes_features _ _ (by decide) (by decide) (by decide) (by decide)).1⟩

/-- C6 counterexample: merging the boxes `[0,0,10,1]` (height 1) and
`[0,1,10,3]` (height 2) yields a record whose height is 2 — the maximum of
the parents, not the union's `y2 − y1 = 3` — and whose `center_x` is 5,
the pixel midpoint of the union box, not a value normalized to `[0,1]` by
the image width as the `LineRecord` definition prescribes. -/
theorem c6_counterexample :
    (merge_adjacent_lines
      [⟨"a", [0, 0, 10, 1], none, 1, 0.5, 0.5, 1, 1, ["a"], 0⟩,
       ⟨"b", [0, 1, 10, 3], none, 2, 0.5, 0.5, 1, 1, ["b"], 0⟩]).map (fun r => r.height) = [2] ∧
    (merge_adjacent_lines
      [⟨"a", [0, 0, 10, 1], none, 1, 0.5, 0.5, 1, 1, ["a"], 0⟩,
       ⟨"b", [0, 1, 10, 3], none, 2, 0.5, 0.5, 1, 1, ["b"], 0⟩]).map
        (fun r => bb r.bbox 3 - bb r.bbox 1) = [3] ∧
    (merge_adjacent_lines
      [⟨"a", [0, 0, 10, 1], none, 1, 0.5, 0.5, 1, 1, ["a"], 0⟩,
       ⟨"b", [0, 1, 10, 3], none, 2, 0.5, 0.5, 1, 1, ["b"], 0⟩]).map (fun r => r.center_x) = [5] ∧
    ((2 : ℚ) ≠ 3) ∧ ¬ ((5 : ℚ) ≤ 1) := by
  refine ⟨by decide, by decide, by decide, by decide, by decide⟩

/-- C7 (amended): re-running `merge_adjacent_lines` on its own output
performs no change provided every consecutive pair of the output is
separated by a vertical gap exceeding 0.6 times the *output's* mean line
height.  Without that proviso a second pass can merge or drop further
records, because merging changes the mean height (and close-but-misaligned
lines are dropped): see `c7_counterexample`. -/
theorem c7_rerun_merge_fixed (lines : List LineRecord)
    (h : gapsExceed (avgHeightOf (merge_adjacent_lines lines))
        (merge_adjacent_lines lines) = true) :
    merge_adjacent_lines (merge_adjacent_lines lines) = merge_adjacent_lines lines := by
  cases hM : merge_adjacent_lines lines with
  | nil => rfl
  | cons a rest =>
    rw [hM] at h
    show merge_adjacent_lines (a :: rest) = a :: rest
    unfold merge_adjacent_lines
    exact mergeAll_of_gaps _ _ _ le_rfl h

/-- C7 witness: two well-separated lines are left alone by both passes. -/
theorem c7_witness :
    gapsExceed
      (avgHeightOf (merge_adjacent_lines
        [⟨"Dune", [0, 0, 10, 10], none, 10, 0.5, 0.2, 1, 4, ["Dune"], 0.25⟩,
         ⟨"Frank Herbert", [0, 100, 10, 110], none, 10, 0.5, 0.8, 2, 13,
          ["Frank", "Herbert"], 2/11⟩]))
      (merge_adjacent_lines
        [⟨"Dune", [0, 0, 10, 10], none, 10, 0.5, 0.2, 1, 4, ["Dune"], 0.25⟩,
         ⟨"Frank Herbert", [0, 100, 10, 110], none, 10, 0.5, 0.8, 2, 13,
          ["Frank", "Herbert"], 2/11⟩]) = true ∧
    merge_adjacent_lines (merge_adjacent_lines
      [⟨"Dune", [0, 0, 10, 10], none, 10, 0.5, 0.2, 1, 4, ["Dune"], 0.25⟩,
       ⟨"Frank Herbert", [0, 100, 10, 110], none, 10, 0.5, 0.8, 2, 13,
        ["Frank", "Herbert"], 2/11⟩]) =
    merge_adjacent_lines
      [⟨"Dune", [0, 0, 10, 10], none, 10, 0.5, 0.2, 1, 4, ["Dune"], 0.25⟩,
       ⟨"Frank Herbert", [0, 100, 10, 110], none, 10, 0.5, 0.8, 2, 13,
        ["Frank", "Herbert"], 2/11⟩] :=
  ⟨by decide, c7_rerun_merge_fixed _ (by decide)⟩

/-- C7 counterexample: the first pass merges the two small lines (mean
height 34, threshold 20.4, gap to `c` is 25 so the run stops), producing
`[a b, c]`; the second pass recomputes the mean height over the output
(50.5, threshold 30.3), now reaches `c` across the 25-pixel gap, finds it
misaligned with the merged record's pixel-space center (|0.5 − 5| > 0.1)
and drops it — so the second pass does not return the first pass's output
unchanged. -/
theorem c7_counterexample :
    merge_adjacent_lines (merge_adjacent_lines
      [⟨"a", [0, 0, 10, 1], none, 1, 0.5, 0.5, 1, 1, ["a"], 0⟩,
       ⟨"b", [0, 1, 10, 3], none, 2, 0.5, 0.5, 1, 1, ["b"], 0⟩,
       ⟨"c", [0, 27, 10, 127], none, 100, 0.5, 0.5, 1, 1, ["c"], 0⟩]) ≠
    merge_adjacent_lines
      [⟨"a", [0, 0, 10, 1], none, 1, 0.5, 0.5, 1, 1, ["a"], 0⟩,
       ⟨"b", [0, 1, 10, 3], none, 2, 0.5, 0.5, 1, 1, ["b"], 0⟩,
       ⟨"c", [0, 27, 10, 127], none, 100, 0.5, 0.5, 1, 1, ["c"], 0⟩] := by decide

/-- C8 (amended): every record returned by `normalize_ocr` has non-blank
text (it contains a non-whitespace character) and a bounding box with at
least four coordinates, and the result length is bounded by
`maxLinesConsidered` whenever that setting is positive.  The source never
checks `x2 ≥ x1` or `y2 ≥ y1`, so degenerate boxes are *not* skipped (see
`c8_counterexample`). -/
theorem c8_normalize_wellformed (ocr : OCRInput) (settings : ParseSettings) :
    (∀ r ∈ normalize_ocr ocr settings,
        (r.text.data.any (fun c => !c.isWhitespace) = true) ∧ 4 ≤ r.bbox.length) ∧
    (0 < settings.max_lines_considered →
      ((normalize_ocr ocr settings).length : ℤ) ≤ settings.max_lines_considered) := by
  constructor
  · intro r hr
    have hr' : r ∈ normalizeLines ocr := by
      unfold normalize_ocr at hr
      split at hr
      · exact List.mem_of_mem_take hr
      · exact hr
    unfold normalizeLines at hr'
    cases hch : ocr.chunks with
    | none => rw [hch] at hr'; simp at hr'
    | some ch =>
      rw [hch] at hr'
      dsimp only at hr'
      obtain ⟨b, _, hb⟩ := List.mem_flatMap.mp hr'
      obtain ⟨p, _, hp⟩ := List.mem_flatMap.mp hb
      obtain ⟨ln, _, hln⟩ := List.mem_filterMap.mp hp
      exact lineToRecord_props _ _ ln r hln
  · intro hpos
    unfold normalize_ocr
    rw [if_pos hpos]
    have hle : ((normalizeLines ocr).take settings.max_lines_considered.toNat).length ≤
        settings.max_lines_considered.toNat := by
      rw [List.length_take]
      omega
    omega

/-- C8 counterexample: a line with the degenerate box `[5,5,1,1]`
(x2 < x1 and y2 < y1) and non-blank text is returned by `normalize_ocr`
rather than skipped, refuting the claim's "degenerate boxes are
skipped". -/
theorem c8_counterexample :
    (normalize_ocr
        (oneLineOcr
          { line_num := 1, bbox := [5, 5, 1, 1], confidence := none
            text := some "A", words := [] })
        defaultSettings).map (fun r => r.bbox) = [[5, 5, 1, 1]] ∧
    ¬ ((5 : ℚ) ≤ 1) := by
  exact ⟨by decide, by decide⟩

/-- C8 witness: a single well-formed line against the default cap of 80. -/
theorem c8_witness :
    (0 : ℤ) < defaultSettings.max_lines_considered ∧
    ((normalize_ocr
        (oneLineOcr
          { line_num := 1, bbox := [0, 0, 10, 10], confidence := none
            text := some "Hello", words := [] })
        defaultSettings).length : ℤ) ≤ defaultSettings.max_lines_considered :=
  ⟨by decide, (c8_normalize_wellformed _ _).2 (by decide)⟩

/-- C9 (amended): scoring a record for author-likeness leaves every field
except `text` unchanged; the `text` field is rewritten in place — the
leading `"by "` prefix is stripped — exactly when the record's text has a
`by` prefix, and the record is returned entirely unchanged otherwise.
(`title_score`, by contrast, returns only a score and touches nothing.)
The claim's "scoring never mutates a LineRecord in place" fails on the
`by`-prefix path: see `c9_counterexample`. -/
theorem c9_author_score_mutation (l : LineRecord) (mh ihh : ℚ) :
    (author_score l mh ihh).2.bbox = l.bbox ∧
    (author_score l mh ihh).2.line_conf = l.line_conf ∧
    (author_score l mh ihh).2.height = l.height ∧
    (author_score l mh ihh).2.center_x = l.center_x ∧
    (author_score l mh ihh).2.center_y = l.center_y ∧
    (author_score l mh ihh).2.word_count = l.word_count ∧
    (author_score l mh ihh).2.char_len = l.char_len ∧
    (author_score l mh ihh).2.tokens = l.tokens ∧
    (author_score l mh ihh).2.caps_ratio = l.caps_ratio ∧
    (hasByPrefix l.text = true → (author_score l mh ihh).2.text = stripByTrim l.text) ∧
    (hasByPrefix l.text = false → (author_score l mh ihh).2 = l) := by
  have key : (author_score l mh ihh).2 = applyByStrip l := rfl
  rw [key]
  unfold applyByStrip
  by_cases h : hasByPrefix l.text = true
  · simp [h]
  · have h' : hasByPrefix l.text = false := by simpa using h
    simp [h']

/-- C9 counterexample: scoring the line `"by John Smith"` for
author-likeness rewrites the record's text in place to `"John Smith"`,
refuting the claim that scoring leaves the record's fields unchanged. -/
theorem c9_counterexample :
    (author_score
        ⟨"by John Smith", [0, 0, 10, 10], none, 10, 0.5, 0.5, 3, 13,
         ["by", "John", "Smith"], 2/11⟩ 10 1000).2.text = "John Smith" ∧
    ("John Smith" : String) ≠ "by John Smith" := by
  refine ⟨by decide, by decide⟩

/-- C9 witness: a record without a `by` prefix is returned unchanged. -/
theorem c9_witness :
    hasByPrefix "Jane Doe" = false ∧
    (author_score ⟨"Jane Doe", [0, 0, 10, 10], none, 10, 0.5, 0.5, 2, 8,
        ["Jane", "Doe"], 2/7⟩ 10 1000).2 =
      ⟨"Jane Doe", [0, 0, 10, 10], none, 10, 0.5, 0.5, 2, 8, ["Jane", "Doe"], 2/7⟩ :=
  ⟨by decide,
   (c9_author_score_mutation
      ⟨"Jane Doe", [0, 0, 10, 10], none, 10, 0.5, 0.5, 2, 8, ["Jane", "Doe"], 2/7⟩
      10 1000).2.2.2.2.2.2.2.2.2.2 (by decide)⟩

/-- C10: when the junk filter is enabled, at least one non-blank line is
present, and every non-blank line is classified as junk, `rank_candidates`
still returns normally: title and author are `None`, the confidence is 0,
both candidate lists are empty, and the warnings report the number of
filtered junk lines. -/
theorem c10_all_junk_graceful (lines : List LineRecord) (ocr : OCRInput)
    (settings : ParseSettings) (hj : settings.junk_filter = true)
    (hne : blankFiltered lines ≠ [])
    (hall : ∀ l ∈ blankFiltered lines, is_junk l.text = true) :
    (rank_candidates lines ocr settings).title = none ∧
    (rank_candidates lines ocr settings).author = none ∧
    (rank_candidates lines ocr settings).confidence = 0 ∧
    (rank_candidates lines ocr settings).candTitle = [] ∧
    (rank_candidates lines ocr settings).candAuthor = [] ∧
    (rank_candidates lines ocr settings).warnings =
      [s!"Filtered {(blankFiltered lines).length} junk lines"] := by
  have hjl : junkFiltered settings (blankFiltered lines) = [] := by
    rw [junkFiltered, if_pos hj, List.filter_eq_nil_iff]
    intro l hl
    simp [hall l hl]
  have hlen : 0 < (blankFiltered lines).length := List.length_pos.mpr hne
  simp only [rank_candidates]
  rw [if_neg hne, hjl]
  simp only [List.length_nil, Nat.sub_zero, scoredTitlePairs, scoredAuthorPairs,
    List.map_nil, sortDesc, List.take_nil, resolveBest, bestPicks, confOf,
    merge_adjacent_lines, ite_self, hj]
  refine ⟨?_, ?_, ?_, ?_, ?_, ?_⟩
  · trivial
  · trivial
  · norm_num
  · trivial
  · trivial
  · simp [hlen]

/-- C10 witness: a single junk line (`"ISBN"`). -/
theorem c10_witness :
    defaultSettings.junk_filter = true ∧
    blankFiltered [⟨"ISBN", [0, 0, 10, 10], none, 10, 0.5, 0.5, 1, 4, ["ISBN"], 1⟩] ≠ [] ∧
    (rank_candidates [⟨"ISBN", [0, 0, 10, 10], none, 10, 0.5, 0.5, 1, 4, ["ISBN"], 1⟩]
        ⟨none, none⟩ defaultSettings).title = none ∧
    (rank_candidates [⟨"ISBN", [0, 0, 10, 10], none, 10, 0.5, 0.5, 1, 4, ["ISBN"], 1⟩]
        ⟨none, none⟩ defaultSettings).author = none ∧
    (rank_candidates [⟨"ISBN", [0, 0, 10, 10], none, 10, 0.5, 0.5, 1, 4, ["ISBN"], 1⟩]
        ⟨none, none⟩ defaultSettings).warnings = ["Filtered 1 junk lines"] := by
  have H := c10_all_junk_graceful
    [⟨"ISBN", [0, 0, 10, 10], none, 10, 0.5, 0.5, 1, 4, ["ISBN"], 1⟩]
    ⟨none, none⟩ defaultSettings rfl (by decide) (by decide)
  exact ⟨rfl, by decide, H.1, H.2.1, by rw [H.2.2.2.2.2]; decide⟩
